import Mathlib

/-!
Verification of the shared_logging module
(src/packages/shared_logging/shared_logging/logging.py).

The module is embedded shallowly:

* Python values that can occur in a webhook request dictionary are the
  inductive type `PyVal` (None, bool, int, str, list, dict with string
  keys, insertion ordered).
* Fallible Python operations (attribute access on a wrongly typed value,
  `Logger.setLevel` on an unknown value, `extra` key collisions in
  `Logger.makeRecord`) return `Except PyErr`.
* The process wide logger registry of the `logging` standard library is an
  association list from names to `Logger` records; `get_logger` is a
  function from a registry to a registry together with the returned
  logger.
* The formatter in use is `python_json_logger.jsonlogger.JsonFormatter`
  (the one published as python-json-logger, version 2.x, whose
  `add_fields` applies `rename_fields` to the required fields and whose
  `merge_record_extra` skips reserved attributes and attributes starting
  with an underscore) specialised by `CustomJsonFormatter.add_fields`.
-/

set_option autoImplicit false

namespace SharedLogging

/-- A Python value as it can occur in a webhook request dictionary or in a
JSON log record: None, bool, int, str, list, or a string keyed dict kept
in insertion order. Floats are not needed by any claim and are omitted;
the only float the module touches, `record.created`, is carried opaquely
as a parameter. -/
inductive PyVal where
  | none
  | bool (b : Bool)
  | int (n : Int)
  | str (s : String)
  | list (xs : List PyVal)
  | dict (d : List (String × PyVal))
deriving Repr

/-- Python exceptions that the embedded code can raise. -/
inductive PyErr where
  | attributeError (msg : String)
  | valueError (msg : String)
  | typeError (msg : String)
  | keyError (msg : String)
deriving Repr, DecidableEq

/-- Python `str.upper` on one ASCII character, implemented structurally so
that concrete instances evaluate inside the kernel. Python `str.upper` is
the full Unicode mapping; on ASCII characters the two agree. -/
def charUpper (c : Char) : Char :=
  if 97 ≤ c.toNat ∧ c.toNat ≤ 122 then Char.ofNat (c.toNat - 32) else c

/-- Python `str.upper`, modelled for ASCII strings. Python uppercases full
Unicode (for example a dotless i upper cases to an ASCII I), so this model
is faithful only on strings satisfying `isAsciiStr`; every theorem that
quantifies over LOG_LEVEL environment values carries an `isAsciiStr`
hypothesis for that reason. -/
def strUpper (s : String) : String := String.mk (s.data.map charUpper)

/-- True when every character of the string is ASCII: exactly the strings
on which `strUpper` agrees with Python `str.upper`. -/
def isAsciiStr (s : String) : Bool := s.data.all (fun c => c.toNat ≤ 127)

/-- Helper for `str.split` with a one character separator: consume the
characters, `acc` holding the current piece reversed. Empty pieces are
preserved and the empty string yields one empty piece, exactly as in
Python. -/
def splitOnCharAux (sep : Char) : List Char → List Char → List String
  | [], acc => [String.mk acc.reverse]
  | c :: rest, acc =>
      if c = sep then String.mk acc.reverse :: splitOnCharAux sep rest []
      else splitOnCharAux sep rest (c :: acc)

/-- Python `s.split("/")`. -/
def pySplitSlash (s : String) : List String := splitOnCharAux '/' s.data []

/-- True when the string starts with an underscore
(Python `key.startswith("_")` in `merge_record_extra`). -/
def startsUnderscore (s : String) : Bool := s.data.head? == some '_'

/-- Python truthiness: `bool(v)`. None, False, 0, empty string, empty list
and empty dict are falsy; everything else is truthy. -/
def pyTruthy : PyVal → Bool
  | .none => false
  | .bool b => b
  | .int n => n != 0
  | .str s => !s.data.isEmpty
  | .list xs => !xs.isEmpty
  | .dict d => !d.isEmpty

/-- Python `d.get(k, default)`: succeeds only on a dict (any other value
raises AttributeError, since only dicts have a `get` method among the
values we model), returning the stored value or the default. -/
def dictGet (v : PyVal) (k : String) (dflt : PyVal) : Except PyErr PyVal :=
  match v with
  | .dict d => pure ((d.lookup k).getD dflt)
  | _ => throw (.attributeError "object has no attribute get")

/-- Python method call `v.split("/")`: succeeds only on a string (any
other value raises AttributeError). -/
def pySplit (v : PyVal) : Except PyErr (List String) :=
  match v with
  | .str s => pure (pySplitSlash s)
  | _ => throw (.attributeError "object has no attribute split")

/-- The context record built by `get_logger` and held by
`DialogflowContextFilter`: six fields, each a Python value, `PyVal.none`
meaning absent. -/
structure DialogflowContext where
  session_id : PyVal
  project_id : PyVal
  agent_id : PyVal
  flow_id : PyVal
  page_id : PyVal
  intent_id : PyVal
deriving Repr

/-- The all absent context: `(None,) * 6` at line 82 of the source. -/
def absentContext : DialogflowContext :=
  ⟨.none, .none, .none, .none, .none, .none⟩

/-- Lines 88-91 of the source: if the split session path has at least 6
elements, `(parts[1], parts[3], parts[-1])` gives
`(project_id, agent_id, session_id)`; otherwise all three stay None.
Inside the guard the indices 1 and 3 are in bounds and the list is
nonempty, so the `getD` defaults are unreachable. -/
def sessionTriple (parts : List String) : PyVal × PyVal × PyVal :=
  if parts.length ≥ 6 then
    (.str (parts.getD 1 ""), .str (parts.getD 3 ""), .str (parts.getLastD ""))
  else
    (.none, .none, .none)

/-- Lines 82-101 of the source: context extraction inside `get_logger`.
`webhook_request` is falsy (`if webhook_request:` fails) or the lookups
run, each mirroring one `.get` chain of the source, with the Python `or`
of the flow and page lookups short circuiting: the fallback side is only
evaluated when the parameter value is falsy. -/
def extractContext (webhook_request : PyVal) : Except PyErr DialogflowContext :=
  if pyTruthy webhook_request then do
    let si ← dictGet webhook_request "sessionInfo" (.dict [])
    let session_path ← dictGet si "session" (.str "")
    let parts ← pySplit session_path
    let t := sessionTriple parts
    let si2 ← dictGet webhook_request "sessionInfo" (.dict [])
    let params ← dictGet si2 "parameters" (.dict [])
    let fparam ← dictGet params "flow-id" .none
    let flow_id ←
      if pyTruthy fparam then pure fparam
      else do
        let fi ← dictGet webhook_request "flowInfo" (.dict [])
        dictGet fi "displayName" .none
    let si3 ← dictGet webhook_request "sessionInfo" (.dict [])
    let params2 ← dictGet si3 "parameters" (.dict [])
    let pparam ← dictGet params2 "page-id" .none
    let page_id ←
      if pyTruthy pparam then pure pparam
      else do
        let pi ← dictGet webhook_request "pageInfo" (.dict [])
        dictGet pi "displayName" .none
    let ii ← dictGet webhook_request "intentInfo" (.dict [])
    let intent_id ← dictGet ii "displayName" .none
    pure { session_id := t.2.2, project_id := t.1, agent_id := t.2.1,
           flow_id := flow_id, page_id := page_id, intent_id := intent_id }
  else
    pure absentContext

/-- A JSON log record under construction: a string keyed association list
in insertion order, mirroring the OrderedDict built by the formatter. -/
abbrev JsonObj := List (String × PyVal)

/-- Python dict assignment `o[k] = v`: replace the value in place when the
key is present, append otherwise. -/
def setKey {α : Type} (o : List (String × α)) (k : String) (v : α) : List (String × α) :=
  match o with
  | [] => [(k, v)]
  | (m, w) :: rest => if m = k then (k, v) :: rest else (m, w) :: setKey rest k v

/-- Python dict deletion as performed by `pop`: drop the entry for `k`. -/
def delKey {α : Type} (o : List (String × α)) (k : String) : List (String × α) :=
  match o with
  | [] => []
  | (m, w) :: rest => if m = k then rest else (m, w) :: delKey rest k

/-- Python `o.pop(k, default)`: the removed value (or the default) together
with the dict without the key. -/
def popKey (o : JsonObj) (k : String) (dflt : PyVal) : PyVal × JsonObj :=
  ((o.lookup k).getD dflt, delKey o k)

/-- `str.upper` lifted to the values stored in a log record. The only call
site applies it to the result of popping `levelname`, which is always the
string default because no such key survives in the record. -/
def pyUpper : PyVal → PyVal
  | .str s => .str (strUpper s)
  | v => v

/-- The reserved log record attributes of python-json-logger
(`RESERVED_ATTRS` in jsonlogger.py, version 2.x): standard `LogRecord`
attributes that `merge_record_extra` never copies into the output. The
same names are exactly the keys `Logger.makeRecord` refuses to accept in
`extra` (the explicit `message` and `asctime` checks plus the attributes
set by `LogRecord.__init__`). -/
def RESERVED_ATTRS : List String :=
  ["args", "asctime", "created", "exc_info", "exc_text", "filename",
   "funcName", "levelname", "levelno", "lineno", "module", "msecs",
   "message", "msg", "name", "pathname", "process", "processName",
   "relativeCreated", "stack_info", "thread", "threadName"]

/-- `Logger.makeRecord` accepts an `extra` dict only when no key collides
with a standard record attribute (otherwise it raises KeyError). -/
def validExtras (extras : JsonObj) : Bool :=
  extras.all (fun kv => !(RESERVED_ATTRS.contains kv.1))

/-- The `rename_fields` mapping the source passes to the formatter at line
116: `levelname` becomes `severity` and `asctime` becomes `timestamp`. -/
def renameOf (k : String) : String :=
  if k = "levelname" then "severity"
  else if k = "asctime" then "timestamp"
  else k

/-- The context dict held by `DialogflowContextFilter` (lines 24-31),
in insertion order. -/
def ctxToObj (c : DialogflowContext) : JsonObj :=
  [("session_id", c.session_id), ("project_id", c.project_id),
   ("agent_id", c.agent_id), ("flow_id", c.flow_id),
   ("page_id", c.page_id), ("intent_id", c.intent_id)]

/-- The four required fields of the format string, written under their
renamed keys by the base `add_fields` loop of python-json-logger 2.x. -/
def baseFields (nm levelname message asctime : String) : JsonObj :=
  [("timestamp", .str asctime), ("name", .str nm),
   ("severity", .str levelname), ("message", .str message)]

/-- `merge_record_extra` of python-json-logger: copy every record
attribute that is neither reserved nor underscore prefixed into the
record, applying `rename_fields` to the key. The attributes left to copy
after the reserved standard ones are the caller extras (in insertion
order); the `dialogflow_context` attribute stamped by the filter is merged
by `mergeContextAttr` below. -/
def mergeRecordExtra (o : JsonObj) (extras : JsonObj) : JsonObj :=
  extras.foldl
    (fun acc kv =>
      if RESERVED_ATTRS.contains kv.1 || startsUnderscore kv.1 then acc
      else setKey acc (renameOf kv.1) kv.2) o

/-- The `dialogflow_context` record attribute (present whenever a context
filter ran) is itself a non reserved attribute and is copied whole by
`merge_record_extra`. -/
def mergeContextAttr (ctx : Option DialogflowContext) (o : JsonObj) : JsonObj :=
  match ctx with
  | Option.none => o
  | Option.some c => setKey o "dialogflow_context" (.dict (ctxToObj c))

/-- The body of `CustomJsonFormatter.add_fields` (lines 49-51): pop
`asctime` (defaulting to `record.created`) into `timestamp`, pop
`levelname` (defaulting to "INFO", upper cased) into `severity`, pop
`name` (defaulting to `record.name`) back into `name`. -/
def customShape (o : JsonObj) (nm : String) (created : PyVal) : JsonObj :=
  let p1 := popKey o "asctime" created
  let o1 := setKey p1.2 "timestamp" p1.1
  let p2 := popKey o1 "levelname" (.str "INFO")
  let o2 := setKey p2.2 "severity" (pyUpper p2.1)
  let p3 := popKey o2 "name" (.str nm)
  setKey p3.2 "name" p3.1

/-- Lines 54-55: `log_record.update(record.dialogflow_context)` when the
context attribute exists. -/
def stampContext (ctx : Option DialogflowContext) (o : JsonObj) : JsonObj :=
  match ctx with
  | Option.none => o
  | Option.some c => (ctxToObj c).foldl (fun acc kv => setKey acc kv.1 kv.2) o

/-- `CustomJsonFormatter.add_fields` (lines 45-55) composed with the base
`JsonFormatter.add_fields` of python-json-logger 2.x for the format
string `"%(asctime)s %(name)s %(levelname)s %(message)s"`.

The base class writes the four required fields under their renamed keys
(`timestamp`, `name`, `severity`, `message`), then `merge_record_extra`
copies every record attribute that is neither reserved nor starts with an
underscore: the caller extras (in insertion order) followed by the
`dialogflow_context` attribute stamped by the filter. The custom body then
pops `asctime` (never present, so `record.created` is used), pops
`levelname` (never present, so the literal default INFO is used), moves
`name` to the end, and finally merges the context dict over the record.

`ctx` is the `dialogflow_context` attribute when a context filter ran,
`created` the opaque `record.created` float, `asctime` the formatted
time string. Record messages are restricted to strings, so the
`message_dict` of dict shaped messages is empty. -/
def add_fields (ctx : Option DialogflowContext) (extras : JsonObj)
    (nm levelname message asctime : String) (created : PyVal) : JsonObj :=
  stampContext ctx
    (customShape
      (mergeContextAttr ctx
        (mergeRecordExtra (baseFields nm levelname message asctime) extras))
      nm created)

/-- A stream handler as created at line 120: the only handler this module
ever builds, writing one JSON line per record to standard output, with the
default handler level NOTSET (0) so that every record passes. -/
structure Handler where
  level : Nat
deriving Repr, DecidableEq

/-- The observable state of a named logging channel: severity threshold,
propagation flag, attached handlers and attached context filters (the only
filter class this module attaches is `DialogflowContextFilter`, identified
by the context it holds). -/
structure Logger where
  level : Nat
  propagate : Bool
  handlers : List Handler
  filters : List DialogflowContext
deriving Repr

/-- A logger as `logging.getLogger` creates it: level NOTSET, propagation
on, no handlers, no filters. -/
def freshLogger : Logger := ⟨0, true, [], []⟩

/-- The process wide logger registry keyed by name. -/
abbrev LoggerState := List (String × Logger)

/-- `logging.getLogger(name)`: the registered logger, or a fresh one. -/
def lookupOrFresh (st : LoggerState) (n : String) : Logger :=
  (st.lookup n).getD freshLogger

/-- The module level attributes of the `logging` standard library whose
names are unchanged by `str.upper`, with their values: the severity
levels, the string constant `BASIC_FORMAT`, and the private style table
`_STYLES` (a dict mapping style characters to style classes; modelled as
a dict value, since `setLevel` only inspects that it is neither an int
nor a string). `get_logger` upper cases the environment value before the
`getattr`, so exactly these attributes are reachable. -/
def loggingModuleUpperAttrs : List (String × PyVal) :=
  [("BASIC_FORMAT", .str "%(levelname)s:%(name)s:%(message)s"),
   ("CRITICAL", .int 50), ("DEBUG", .int 10), ("ERROR", .int 40),
   ("FATAL", .int 50), ("INFO", .int 20), ("NOTSET", .int 0),
   ("WARN", .int 30), ("WARNING", .int 30),
   ("_STYLES", .dict [("%", .str "PercentStyle")])]

/-- The `logging._nameToLevel` table consulted by `Logger.setLevel` for
string arguments. -/
def nameToLevel : List (String × Nat) :=
  [("CRITICAL", 50), ("FATAL", 50), ("ERROR", 40), ("WARN", 30),
   ("WARNING", 30), ("INFO", 20), ("DEBUG", 10), ("NOTSET", 0)]

/-- `logging._checkLevel`, called by `Logger.setLevel`: an int is taken as
is (every reachable int here is a nonnegative level constant), a string is
looked up in `_nameToLevel` and raises ValueError when unknown, anything
else raises TypeError. -/
def checkLevel : PyVal → Except PyErr Nat
  | .int n => pure n.toNat
  | .str s =>
      match nameToLevel.lookup s with
      | Option.some n => pure n
      | Option.none => throw (.valueError "Unknown level")
  | _ => throw (.typeError "Level not an integer or a valid string")

/-- Lines 70-71 of the source: `os.environ.get("LOG_LEVEL", "INFO")`,
upper cased, then `getattr(logging, log_level_str, logging.INFO)`. -/
def resolveLevelAttr (env : Option String) : PyVal :=
  (loggingModuleUpperAttrs.lookup (strUpper (env.getD "INFO"))).getD (.int 20)

/-- `get_logger(name, webhook_request)` (lines 58-126) acting on the
logger registry, with `env` the current value of the LOG_LEVEL environment
variable. The level resolution, `setLevel` and the `propagate` assignment
happen before the `hasHandlers` guard; with propagation already disabled,
`hasHandlers` only inspects the own handler list. On the guard path the
logger is returned with the context of the call discarded; otherwise the
context is extracted, one stream handler (formatter attached) and one
context filter are appended, and the logger is returned. -/
def get_logger (st : LoggerState) (env : Option String) (nm : String)
    (webhook_request : PyVal) : Except PyErr (LoggerState × Logger) := do
  let log_level := resolveLevelAttr env
  let lvl ← checkLevel log_level
  let lg0 := lookupOrFresh st nm
  let lg1 : Logger := { lg0 with level := lvl, propagate := false }
  if lg1.handlers.isEmpty then do
    let ctx ← extractContext webhook_request
    let lg2 : Logger := { lg1 with handlers := lg1.handlers ++ [⟨0⟩],
                                   filters := lg1.filters ++ [ctx] }
    pure (setKey st nm lg2, lg2)
  else
    pure (setKey st nm lg1, lg1)

/-- `Logger.getEffectiveLevel`: the own level when set, otherwise the
level found walking up the hierarchy; this module never configures any
ancestor, so the walk ends at the root logger, whose default level is
WARNING (30). -/
def effectiveLevel (lg : Logger) : Nat :=
  if lg.level = 0 then 30 else lg.level

/-- One log call `logger.log(levelno, msg, extra=extras)` on the channel
registered under `nm`, returning the JSON objects written to standard
output (one per line). `isEnabledFor` drops the call below the effective
level before a record exists; `makeRecord` then rejects extras colliding
with standard record attributes; the logger level filters run (every
`DialogflowContextFilter` stamps its context on the record and accepts,
so the last attached context wins); finally every handler whose level is
not above the record level formats the record into one line. -/
def logCall (st : LoggerState) (nm : String) (levelno : Nat)
    (levelname msg asctime : String) (extras : JsonObj) (created : PyVal) :
    Except PyErr (List JsonObj) :=
  let lg := lookupOrFresh st nm
  if levelno < effectiveLevel lg then pure []
  else if validExtras extras then
    let ctx := lg.filters.getLast?
    pure ((lg.handlers.filter (fun h => h.level ≤ levelno)).map
      (fun _ => add_fields ctx extras nm levelname msg asctime created))
  else
    throw (.keyError "Attempt to overwrite a LogRecord attribute")

/-- The logger produced by a first `get_logger` call without a request and
without LOG_LEVEL: threshold INFO (20), propagation off, one stream
handler, one context filter holding the all absent context. -/
def cfgLg : Logger := ⟨20, false, [⟨0⟩], [absentContext]⟩

/-- The registry after that first call registered `cfgLg` under "app". -/
def cfgSt : LoggerState := [("app", cfgLg)]

/-- A webhook request whose `sessionInfo.session` is an integer instead of
a string. -/
def intSessionReq : PyVal := .dict [("sessionInfo", .dict [("session", .int 5)])]

/-- A webhook request whose `flow-id` parameter is present but empty (a
falsy string) while `flowInfo.displayName` is present. -/
def falsyFlowReq : PyVal :=
  .dict [("sessionInfo", .dict [("parameters", .dict [("flow-id", .str "")])]),
         ("flowInfo", .dict [("displayName", .str "fallback_flow")])]

def optIsDict : Option PyVal → Bool
  | Option.none => true
  | Option.some (.dict _) => true
  | _ => false

def siOk : Option PyVal → Bool
  | Option.none => true
  | Option.some (.dict si) =>
      (match si.lookup "session" with
       | Option.none => true
       | Option.some (.str _) => true
       | _ => false) &&
      optIsDict (si.lookup "parameters")
  | _ => false

def optIsStr : Option PyVal → Bool
  | Option.none => true
  | Option.some (.str _) => true
  | _ => false

def WellTypedReq (r : PyVal) : Bool :=
  match r with
  | .dict d =>
      siOk (d.lookup "sessionInfo") &&
      optIsDict (d.lookup "flowInfo") &&
      optIsDict (d.lookup "pageInfo") &&
      optIsDict (d.lookup "intentInfo")
  | r => !pyTruthy r

def flowParamOf (r : PyVal) : PyVal :=
  match r with
  | .dict d =>
      match (d.lookup "sessionInfo").getD (.dict []) with
      | .dict si =>
          match (si.lookup "parameters").getD (.dict []) with
          | .dict ps => (ps.lookup "flow-id").getD .none
          | _ => .none
      | _ => .none
  | _ => .none

def pageParamOf (r : PyVal) : PyVal :=
  match r with
  | .dict d =>
      match (d.lookup "sessionInfo").getD (.dict []) with
      | .dict si =>
          match (si.lookup "parameters").getD (.dict []) with
          | .dict ps => (ps.lookup "page-id").getD .none
          | _ => .none
      | _ => .none
  | _ => .none

def flowDisplayOf (r : PyVal) : PyVal :=
  match r with
  | .dict d =>
      match (d.lookup "flowInfo").getD (.dict []) with
      | .dict fi => (fi.lookup "displayName").getD .none
      | _ => .none
  | _ => .none

def pageDisplayOf (r : PyVal) : PyVal :=
  match r with
  | .dict d =>
      match (d.lookup "pageInfo").getD (.dict []) with
      | .dict pi => (pi.lookup "displayName").getD .none
      | _ => .none
  | _ => .none

/-- The session path string the source reads before splitting: the
`sessionInfo.session` value with the default empty string of
`.get("session", "")`; a missing `sessionInfo` or `session` key yields
the empty string, exactly as in the source. The non string fallbacks are
unreachable whenever extraction succeeds. -/
def sessionPathOf (r : PyVal) : String :=
  match r with
  | .dict d =>
      match (d.lookup "sessionInfo").getD (.dict []) with
      | .dict si =>
          match (si.lookup "session").getD (.str "") with
          | .str s => s
          | _ => ""
      | _ => ""
  | _ => ""

/-- The `intentInfo.displayName` lookup of line 101, `PyVal.none` when
`intentInfo` or `displayName` cannot be located. -/
def intentDisplayOf (r : PyVal) : PyVal :=
  match r with
  | .dict d =>
      match (d.lookup "intentInfo").getD (.dict []) with
      | .dict ii => (ii.lookup "displayName").getD .none
      | _ => .none
  | _ => .none

/-- A supplied request in which no context field can be located: the
session path has fewer than 6 segments and every other consulted key is
missing. -/
def sparseReq : PyVal := .dict [("sessionInfo", .dict [("session", .str "a/b")])]

/-- The mock Dialogflow webhook request from the demonstration block of
the source. -/
def telecomReq : PyVal := .dict [
  ("sessionInfo", .dict [
    ("session", .str "projects/telecom-project-123/locations/global/agents/agent-abc-456/sessions/session-xyz-789"),
    ("parameters", .dict [("flow-id", .str "tech_support"),
                          ("page-id", .str "internet_issues")])]),
  ("intentInfo", .dict [("displayName", .str "report.internet.slow")]),
  ("text", .str "my internet is super slow today")]

/-- The context the source extracts from `telecomReq` (note that the
position based extraction stores the location segment under agent_id). -/
def telecomCtx : DialogflowContext :=
  ⟨.str "session-xyz-789", .str "telecom-project-123", .str "global",
   .str "tech_support", .str "internet_issues", .str "report.internet.slow"⟩

def telecomLg : Logger := ⟨20, false, [⟨0⟩], [telecomCtx]⟩

def telecomSt : LoggerState := [("app", telecomLg)]

def envSessionStr : String :=
  "projects/P/locations/L/agents/A/environments/E/sessions/S"

def envSi : List (String × PyVal) := [("session", .str envSessionStr)]

def envD : List (String × PyVal) := [("sessionInfo", .dict envSi)]

def envCtx : DialogflowContext :=
  ⟨.str "S", .str "P", .str "L", .none, .none, .none⟩

def c7W : PyVal := .dict [
  ("sessionInfo", .dict [("parameters",
    .dict [("flow-id", .str "tech_support"),
           ("page-id", .str "internet_issues")])]),
  ("flowInfo", .dict [("displayName", .str "ignored")])]

def c7Ctx : DialogflowContext :=
  ⟨.none, .none, .none, .str "tech_support", .str "internet_issues", .none⟩

def warnLg : Logger := ⟨30, false, [⟨0⟩], [absentContext]⟩

def warnSt : LoggerState := [("app", warnLg)]

def lg40 : Logger := ⟨40, false, [⟨0⟩], [absentContext]⟩

def c5Extras : JsonObj := [("customer_id", .str "CUST-55443")]

def c5Rec : JsonObj :=
  add_fields (Option.some telecomCtx) c5Extras "app" "INFO"
    "Starting internet speed diagnosis." "ts" (.int 1700)

def c10Extras : JsonObj := [("session_id", .str "SPOOF")]

def c10Rec : JsonObj :=
  add_fields (Option.some telecomCtx) c10Extras "app" "INFO" "m" "ts" (.int 1700)

/-! Basic lemmas about the embedded dictionary operations. -/

theorem exc_bind_ok {α β : Type} (a : α) (f : α → Except PyErr β) :
    (Except.ok a >>= f : Except PyErr β) = f a := rfl

theorem exc_bind_err {α β : Type} (e : PyErr) (f : α → Except PyErr β) :
    (Except.error e >>= f : Except PyErr β) = Except.error e := rfl

theorem beq_true_of_eq {k m : String} (h : k = m) : (k == m) = true :=
  beq_iff_eq.mpr h

theorem beq_false_of_ne {k m : String} (h : k ≠ m) : (k == m) = false :=
  beq_eq_false_iff_ne.mpr h

theorem lookup_setKey {α : Type} (o : List (String × α)) (k k' : String) (v : α) :
    (setKey o k v).lookup k' = if k' = k then some v else o.lookup k' := by
  induction o with
  | nil =>
      by_cases h : k' = k <;>
        simp [setKey, List.lookup, beq_true_of_eq, beq_false_of_ne, h]
  | cons p rest ih =>
      obtain ⟨m, w⟩ := p
      by_cases hmk : m = k
      · subst hmk
        by_cases h : k' = m <;>
          simp [setKey, List.lookup, beq_true_of_eq, beq_false_of_ne, h]
      · by_cases h : k' = m
        · subst h
          have hne : k' ≠ k := fun hkk => hmk hkk
          simp [setKey, List.lookup, hmk, beq_true_of_eq, hne]
        · simp [setKey, List.lookup, hmk, beq_false_of_ne, h, ih]

theorem lookup_delKey_ne {α : Type} (o : List (String × α)) (k k' : String)
    (h : k' ≠ k) : (delKey o k).lookup k' = o.lookup k' := by
  induction o with
  | nil => simp [delKey]
  | cons p rest ih =>
      obtain ⟨m, w⟩ := p
      by_cases hmk : m = k
      · subst hmk
        simp [delKey, List.lookup, beq_false_of_ne, h]
      · by_cases hkm : k' = m
        · subst hkm
          simp [delKey, List.lookup, hmk, beq_true_of_eq]
        · simp [delKey, List.lookup, hmk, beq_false_of_ne, hkm, ih]

theorem isSome_lookup_setKey {α : Type} (o : List (String × α)) (k k' : String)
    (v : α) (h : (o.lookup k').isSome) : ((setKey o k v).lookup k').isSome := by
  rw [lookup_setKey]
  by_cases hk : k' = k <;> simp [hk, h]

/-- The keys written by `merge_record_extra` do not disturb any key that no
extra renames to. -/
theorem lookup_mergeExtras_notin (extras : JsonObj) (o : JsonObj) (k : String)
    (h : ∀ kv ∈ extras, renameOf kv.1 ≠ k) :
    (mergeRecordExtra o extras).lookup k = o.lookup k := by
  unfold mergeRecordExtra
  induction extras generalizing o with
  | nil => rfl
  | cons kv rest ih =>
      have hk : renameOf kv.1 ≠ k := h kv (List.mem_cons_self kv rest)
      have hrest : ∀ kv ∈ rest, renameOf kv.1 ≠ k :=
        fun kv hm => h kv (List.mem_cons_of_mem _ hm)
      rw [List.foldl_cons]
      by_cases hskip : (RESERVED_ATTRS.contains kv.1 || startsUnderscore kv.1) = true
      · rw [if_pos hskip]
        exact ih _ hrest
      · rw [if_neg hskip, ih _ hrest, lookup_setKey, if_neg (Ne.symm hk)]

theorem isSome_mergeExtras_mono (extras : JsonObj) (o : JsonObj) (k : String)
    (h : (o.lookup k).isSome) :
    ((mergeRecordExtra o extras).lookup k).isSome := by
  unfold mergeRecordExtra
  induction extras generalizing o with
  | nil => exact h
  | cons kv rest ih =>
      rw [List.foldl_cons]
      by_cases hskip : (RESERVED_ATTRS.contains kv.1 || startsUnderscore kv.1) = true
      · rw [if_pos hskip]
        exact ih _ h
      · rw [if_neg hskip]
        exact ih _ (isSome_lookup_setKey _ _ _ _ h)

/-- Every caller extra that is neither reserved nor underscore prefixed
ends up as a key of the merged record. -/
theorem isSome_mergeExtras_mem (extras : JsonObj) (o : JsonObj)
    (kv : String × PyVal) (hmem : kv ∈ extras)
    (hres : RESERVED_ATTRS.contains kv.1 = false)
    (hund : startsUnderscore kv.1 = false) :
    ((mergeRecordExtra o extras).lookup (renameOf kv.1)).isSome := by
  unfold mergeRecordExtra
  induction extras generalizing o with
  | nil => cases hmem
  | cons hd rest ih =>
      rw [List.foldl_cons]
      rcases List.mem_cons.mp hmem with heq | hmem'
      · subst heq
        have hskip : (RESERVED_ATTRS.contains kv.1 || startsUnderscore kv.1) = true → False := by
          rw [hres, hund]
          simp
        rw [if_neg hskip]
        exact isSome_mergeExtras_mono _ _ _ (by rw [lookup_setKey]; simp)
      · by_cases hskip : (RESERVED_ATTRS.contains hd.1 || startsUnderscore hd.1) = true
        · rw [if_pos hskip]
          exact ih _ hmem'
        · rw [if_neg hskip]
          exact ih _ hmem'

/-- C1, counterexample. The claim says context extraction raises no error
for any malformed substructure, naming `sessionInfo.session` not being a
string; on a request whose session is the integer 5 the extraction (and
with it the whole factory call) raises AttributeError from `5.split("/")`
instead of degrading to absent. -/
theorem extraction_raises_on_int_session :
    extractContext intSessionReq =
      .error (.attributeError "object has no attribute split") ∧
    get_logger [] Option.none "app" intSessionReq =
      .error (.attributeError "object has no attribute split") :=
  ⟨rfl, rfl⟩

/-- C4, code bug. The formatter is constructed with
`rename_fields={"levelname": "severity", "asctime": "timestamp"}`, so the
base `add_fields` already stores the level name under `severity`; the
custom `add_fields` then pops the no longer existing key `levelname` and
receives its literal default "INFO", which overwrites the real level name.
A call at ERROR severity on a channel built by `get_logger` therefore
emits `severity = "INFO"`, not `severity = "ERROR"` as the claim states. -/
theorem error_call_emits_severity_INFO :
    get_logger [] Option.none "app" PyVal.none = .ok (cfgSt, cfgLg) ∧
    (logCall cfgSt "app" 40 "ERROR" "Failed to retrieve account details."
        "ts" [] (.int 0)).map (fun ls => ls.map (fun r => r.lookup "severity")) =
      .ok [some (.str "INFO")] :=
  ⟨rfl, rfl⟩

/-- C5, counterexample. `merge_record_extra` skips every record attribute
whose name starts with an underscore, so a caller supplied extra
`_hidden` (which `makeRecord` accepts) does not appear in the emitted
record, refuting "plus every caller-supplied extra key". -/
theorem underscore_extra_key_dropped :
    validExtras [("_hidden", .str "x")] = true ∧
    (logCall cfgSt "app" 20 "INFO" "m" "ts" [("_hidden", .str "x")]
        (.int 0)).map (fun ls => ls.map (fun r => r.lookup "_hidden")) =
      .ok [Option.none] :=
  ⟨rfl, rfl⟩

/-- C6, counterexample. The upper cased LOG_LEVEL value reaches every
attribute of the `logging` module whose name `str.upper` leaves unchanged.
`getattr(logging, "BASIC_FORMAT")` is the format string constant, so
`Logger.setLevel` on it raises ValueError, and
`getattr(logging, "_STYLES")` is the style table dict, so `setLevel` on it
raises TypeError: `LOG_LEVEL=basic_format` and `LOG_LEVEL=_styles` both
make the factory raise instead of silently defaulting to INFO. -/
theorem get_logger_raises_on_nonlevel_attrs :
    get_logger [] (Option.some "basic_format") "app" PyVal.none =
      .error (.valueError "Unknown level") ∧
    get_logger [] (Option.some "_styles") "app" PyVal.none =
      .error (.typeError "Level not an integer or a valid string") :=
  ⟨rfl, rfl⟩

/-- C7, counterexample. The source combines the parameter and the display
name with the Python `or`, which tests truthiness, not presence: with the
`flow-id` parameter present but equal to the empty string and
`flowInfo.displayName` present, the display name wins, refuting "the
parameter value wins whenever both are present". -/
theorem falsy_flow_param_loses_to_displayName :
    extractContext falsyFlowReq =
      .ok ⟨.none, .none, .none, .str "fallback_flow", .none, .none⟩ ∧
    [("flow-id", PyVal.str "")].lookup "flow-id" = some (.str "") ∧
    (PyVal.str "fallback_flow" ≠ PyVal.str "") :=
  ⟨rfl, rfl, fun h => by injection h with h; exact absurd h (by decide)⟩

/-- C9, counterexample. `setLevel` runs before the idempotence guard, so a
second call for an already configured name still re-resolves LOG_LEVEL and
overwrites the severity threshold: configuring under LOG_LEVEL=INFO and
calling again under LOG_LEVEL=ERROR moves the threshold from 20 to 40,
refuting "no observable channel state ... severity threshold ... is
modified by that call". -/
theorem second_call_resets_threshold :
    get_logger [] (Option.some "INFO") "app" PyVal.none = .ok (cfgSt, cfgLg) ∧
    get_logger cfgSt (Option.some "ERROR") "app" PyVal.none =
      .ok ([("app", ⟨40, false, [⟨0⟩], [absentContext]⟩)],
           ⟨40, false, [⟨0⟩], [absentContext]⟩) ∧
    cfgLg.level = 20 :=
  ⟨rfl, rfl, rfl⟩

theorem exc_pure_bind {α β : Type} (a : α) (f : α → Except PyErr β) :
    ((pure a : Except PyErr α) >>= f) = f a := rfl

theorem optIsDict_elim (o : Option PyVal) (h : optIsDict o = true) :
    ∃ dd, o.getD (.dict []) = .dict dd := by
  match o with
  | Option.none => exact ⟨[], rfl⟩
  | Option.some (.dict dd) => exact ⟨dd, rfl⟩
  | Option.some .none | Option.some (.bool _) | Option.some (.int _)
  | Option.some (.str _) | Option.some (.list _) =>
      simp [optIsDict] at h

theorem optIsStr_elim (o : Option PyVal) (h : optIsStr o = true) :
    ∃ s, o.getD (.str "") = .str s := by
  match o with
  | Option.none => exact ⟨"", rfl⟩
  | Option.some (.str s) => exact ⟨s, rfl⟩
  | Option.some .none | Option.some (.bool _) | Option.some (.int _)
  | Option.some (.dict _) | Option.some (.list _) =>
      simp [optIsStr] at h

theorem siOk_elim (o : Option PyVal) (h : siOk o = true) :
    ∃ sid, o.getD (.dict []) = .dict sid ∧
      optIsStr (sid.lookup "session") = true ∧
      optIsDict (sid.lookup "parameters") = true := by
  match o with
  | Option.none => exact ⟨[], rfl, rfl, rfl⟩
  | Option.some (.dict sid) =>
      refine ⟨sid, rfl, ?_, ?_⟩
      · rcases hs : sid.lookup "session" with _ | v
        · rfl
        · cases v <;> simp [siOk, hs, optIsStr, Bool.and_eq_true] at h ⊢
      · rcases hp : sid.lookup "parameters" with _ | v
        · rfl
        · cases v <;> simp [siOk, hp, optIsDict, Bool.and_eq_true] at h ⊢
  | Option.some .none | Option.some (.bool _) | Option.some (.int _)
  | Option.some (.str _) | Option.some (.list _) =>
      simp [siOk] at h

theorem bind_eq_ok {α β : Type} {ma : Except PyErr α} {f : α → Except PyErr β}
    {b : β} (h : (ma >>= f) = .ok b) : ∃ a, ma = .ok a ∧ f a = .ok b := by
  cases ma with
  | error e => exact Except.noConfusion h
  | ok a => exact ⟨a, rfl, h⟩

/-- C2. For every supplied webhook request whose `sessionInfo.session`
is a string, splitting it on the slash gives: with at least 6 elements,
the element at index 1 is project_id, the element at index 3 is agent_id
and the last element is session_id (so a longer path with an environments
segment resolves the same three fields); with fewer than 6 elements all
three stay absent. -/
theorem extractContext_session_split_fields
    (d si : List (String × PyVal)) (s : String) (ctx : DialogflowContext)
    (hsi : d.lookup "sessionInfo" = Option.some (.dict si))
    (hs : si.lookup "session" = Option.some (.str s))
    (hok : extractContext (.dict d) = .ok ctx) :
    (6 ≤ (pySplitSlash s).length →
       ctx.project_id = .str ((pySplitSlash s).getD 1 "") ∧
       ctx.agent_id = .str ((pySplitSlash s).getD 3 "") ∧
       ctx.session_id = .str ((pySplitSlash s).getLastD "")) ∧
    ((pySplitSlash s).length < 6 →
       ctx.project_id = PyVal.none ∧ ctx.agent_id = PyVal.none ∧
       ctx.session_id = PyVal.none) := by
  have hne : d ≠ [] := by
    intro hd
    subst hd
    simp at hsi
  have htr : pyTruthy (.dict d) = true := by
    cases d with
    | nil => exact absurd rfl hne
    | cons p rest => rfl
  simp only [extractContext, htr, if_true, dictGet, pySplit, hsi,
    Option.getD_some, exc_pure_bind, hs] at hok
  obtain ⟨fparam, e1, hok⟩ := bind_eq_ok hok
  by_cases hb1 : pyTruthy fparam = true
  · rw [if_pos hb1] at hok
    obtain ⟨pparam, e2, hok⟩ := bind_eq_ok hok
    by_cases hb2 : pyTruthy pparam = true
    · rw [if_pos hb2] at hok
      obtain ⟨intent, e3, hok⟩ := bind_eq_ok hok
      have hctx := Except.ok.inj hok
      subst hctx
      constructor
      · intro h6
        simp [sessionTriple, if_pos h6]
      · intro hlt
        simp [sessionTriple, if_neg (not_le.mpr hlt)]
    · rw [if_neg hb2] at hok
      obtain ⟨pg, e3, hok⟩ := bind_eq_ok hok
      obtain ⟨intent, e4, hok⟩ := bind_eq_ok hok
      have hctx := Except.ok.inj hok
      subst hctx
      constructor
      · intro h6
        simp [sessionTriple, if_pos h6]
      · intro hlt
        simp [sessionTriple, if_neg (not_le.mpr hlt)]
  · rw [if_neg hb1] at hok
    obtain ⟨fl, e2, hok⟩ := bind_eq_ok hok
    obtain ⟨pparam, e3, hok⟩ := bind_eq_ok hok
    by_cases hb2 : pyTruthy pparam = true
    · rw [if_pos hb2] at hok
      obtain ⟨intent, e4, hok⟩ := bind_eq_ok hok
      have hctx := Except.ok.inj hok
      subst hctx
      constructor
      · intro h6
        simp [sessionTriple, if_pos h6]
      · intro hlt
        simp [sessionTriple, if_neg (not_le.mpr hlt)]
    · rw [if_neg hb2] at hok
      obtain ⟨pg, e4, hok⟩ := bind_eq_ok hok
      obtain ⟨intent, e5, hok⟩ := bind_eq_ok hok
      have hctx := Except.ok.inj hok
      subst hctx
      constructor
      · intro h6
        simp [sessionTriple, if_pos h6]
      · intro hlt
        simp [sessionTriple, if_neg (not_le.mpr hlt)]

theorem exc_throw_bind {α β : Type} (e : PyErr) (f : α → Except PyErr β) :
    ((throw e : Except PyErr α) >>= f) = Except.error e := rfl

/-- Full characterization of a successful extraction on a supplied
request: every context field equals the value of the corresponding lookup
chain, each accessor defaulting to absent when its keys cannot be
located. -/
theorem extractContext_fields_char (r : PyVal) (ctx : DialogflowContext)
    (htr : pyTruthy r = true) (hok : extractContext r = .ok ctx) :
    ctx.project_id = (sessionTriple (pySplitSlash (sessionPathOf r))).1 ∧
    ctx.agent_id = (sessionTriple (pySplitSlash (sessionPathOf r))).2.1 ∧
    ctx.session_id = (sessionTriple (pySplitSlash (sessionPathOf r))).2.2 ∧
    ctx.flow_id =
      (if pyTruthy (flowParamOf r) then flowParamOf r else flowDisplayOf r) ∧
    ctx.page_id =
      (if pyTruthy (pageParamOf r) then pageParamOf r else pageDisplayOf r) ∧
    ctx.intent_id = intentDisplayOf r := by
  cases r with
  | none => simp [pyTruthy] at htr
  | bool b =>
      cases b
      · simp [pyTruthy] at htr
      · simp only [extractContext, htr, if_true, dictGet, exc_throw_bind] at hok
        exact Except.noConfusion hok
  | int n =>
      simp only [extractContext, htr, if_true, dictGet, exc_throw_bind] at hok
      exact Except.noConfusion hok
  | str s =>
      simp only [extractContext, htr, if_true, dictGet, exc_throw_bind] at hok
      exact Except.noConfusion hok
  | list xs =>
      simp only [extractContext, htr, if_true, dictGet, exc_throw_bind] at hok
      exact Except.noConfusion hok
  | dict d =>
      simp only [extractContext, htr, if_true] at hok
      rcases hX : (d.lookup "sessionInfo").getD (.dict []) with _ | b | n | s0 | xs | si <;>
        simp only [hX, dictGet, pySplit, exc_pure_bind, exc_throw_bind] at hok <;>
        try exact Except.noConfusion hok
      rcases hS : (si.lookup "session").getD (.str "") with _ | b | n | s1 | xs | sd <;>
        simp only [hS, dictGet, pySplit, exc_pure_bind, exc_throw_bind] at hok <;>
        try exact Except.noConfusion hok
      rcases hP : (si.lookup "parameters").getD (.dict []) with _ | b | n | s2 | xs | ps <;>
        simp only [hP, dictGet, pySplit, exc_pure_bind, exc_throw_bind] at hok <;>
        try exact Except.noConfusion hok
      have hsp : sessionPathOf (PyVal.dict d) = s1 := by
        simp [sessionPathOf, hX, hS]
      have hfp : flowParamOf (PyVal.dict d) = (ps.lookup "flow-id").getD PyVal.none := by
        simp [flowParamOf, hX, hP]
      have hpp : pageParamOf (PyVal.dict d) = (ps.lookup "page-id").getD PyVal.none := by
        simp [pageParamOf, hX, hP]
      by_cases hb1 : pyTruthy ((ps.lookup "flow-id").getD PyVal.none) = true
      · rw [if_pos hb1] at hok
        by_cases hb2 : pyTruthy ((ps.lookup "page-id").getD PyVal.none) = true
        · rw [if_pos hb2] at hok
          rcases hI : (d.lookup "intentInfo").getD (.dict []) with _ | b | n | s3 | xs | ii <;>
            simp only [hI, dictGet, exc_pure_bind, exc_throw_bind] at hok <;>
            try exact Except.noConfusion hok
          have hid : intentDisplayOf (PyVal.dict d) =
              (ii.lookup "displayName").getD PyVal.none := by
            simp [intentDisplayOf, hI]
          have hctx := Except.ok.inj hok
          subst hctx
          rw [hsp, hfp, hpp, hid, if_pos hb1, if_pos hb2]
          exact ⟨rfl, rfl, rfl, rfl, rfl, rfl⟩
        · rw [if_neg hb2] at hok
          rcases hG : (d.lookup "pageInfo").getD (.dict []) with _ | b | n | s3 | xs | pi <;>
            simp only [hG, dictGet, exc_pure_bind, exc_throw_bind] at hok <;>
            try exact Except.noConfusion hok
          rcases hI : (d.lookup "intentInfo").getD (.dict []) with _ | b | n | s4 | xs | ii <;>
            simp only [hI, dictGet, exc_pure_bind, exc_throw_bind] at hok <;>
            try exact Except.noConfusion hok
          have hpd : pageDisplayOf (PyVal.dict d) =
              (pi.lookup "displayName").getD PyVal.none := by
            simp [pageDisplayOf, hG]
          have hid : intentDisplayOf (PyVal.dict d) =
              (ii.lookup "displayName").getD PyVal.none := by
            simp [intentDisplayOf, hI]
          have hctx := Except.ok.inj hok
          subst hctx
          rw [hsp, hfp, hpp, hpd, hid, if_pos hb1, if_neg hb2]
          exact ⟨rfl, rfl, rfl, rfl, rfl, rfl⟩
      · rw [if_neg hb1] at hok
        rcases hF : (d.lookup "flowInfo").getD (.dict []) with _ | b | n | s3 | xs | fi <;>
          simp only [hF, dictGet, exc_pure_bind, exc_throw_bind] at hok <;>
          try exact Except.noConfusion hok
        have hfd : flowDisplayOf (PyVal.dict d) =
            (fi.lookup "displayName").getD PyVal.none := by
          simp [flowDisplayOf, hF]
        by_cases hb2 : pyTruthy ((ps.lookup "page-id").getD PyVal.none) = true
        · rw [if_pos hb2] at hok
          rcases hI : (d.lookup "intentInfo").getD (.dict []) with _ | b | n | s4 | xs | ii <;>
            simp only [hI, dictGet, exc_pure_bind, exc_throw_bind] at hok <;>
            try exact Except.noConfusion hok
          have hid : intentDisplayOf (PyVal.dict d) =
              (ii.lookup "displayName").getD PyVal.none := by
            simp [intentDisplayOf, hI]
          have hctx := Except.ok.inj hok
          subst hctx
          rw [hsp, hfp, hpp, hfd, hid, if_neg hb1, if_pos hb2]
          exact ⟨rfl, rfl, rfl, rfl, rfl, rfl⟩
        · rw [if_neg hb2] at hok
          rcases hG : (d.lookup "pageInfo").getD (.dict []) with _ | b | n | s4 | xs | pi <;>
            simp only [hG, dictGet, exc_pure_bind, exc_throw_bind] at hok <;>
            try exact Except.noConfusion hok
          rcases hI : (d.lookup "intentInfo").getD (.dict []) with _ | b | n | s5 | xs | ii <;>
            simp only [hI, dictGet, exc_pure_bind, exc_throw_bind] at hok <;>
            try exact Except.noConfusion hok
          have hpd : pageDisplayOf (PyVal.dict d) =
              (pi.lookup "displayName").getD PyVal.none := by
            simp [pageDisplayOf, hG]
          have hid : intentDisplayOf (PyVal.dict d) =
              (ii.lookup "displayName").getD PyVal.none := by
            simp [intentDisplayOf, hI]
          have hctx := Except.ok.inj hok
          subst hctx
          rw [hsp, hfp, hpp, hfd, hpd, hid, if_neg hb1, if_neg hb2]
          exact ⟨rfl, rfl, rfl, rfl, rfl, rfl⟩

/-- C1 (amended). The context extraction raises no error when the request
is absent or a well typed mapping (each consulted substructure, when
present, is a mapping and `sessionInfo.session`, when present, is a
string); when the request is absent all six fields are absent; and on
every supplied request where extraction returns, every context field that
cannot be located is absent: the three session derived fields are absent
when the (possibly defaulted) session path splits into fewer than 6
segments, flow_id and page_id are absent when neither the parameter nor
the display name can be located, and intent_id is absent when
`intentInfo.displayName` cannot be located. The claim as frozen also
covers ill typed substructures such as an integer session, where the code
raises instead of degrading to absent (see the counterexample). -/
theorem extractContext_wellTyped_no_raise :
    (∀ r, WellTypedReq r = true → (extractContext r).isOk = true) ∧
    extractContext PyVal.none = .ok absentContext ∧
    (∀ r ctx, pyTruthy r = true → extractContext r = .ok ctx →
      ((pySplitSlash (sessionPathOf r)).length < 6 →
          ctx.project_id = PyVal.none ∧ ctx.agent_id = PyVal.none ∧
          ctx.session_id = PyVal.none) ∧
      (flowParamOf r = PyVal.none → flowDisplayOf r = PyVal.none →
          ctx.flow_id = PyVal.none) ∧
      (pageParamOf r = PyVal.none → pageDisplayOf r = PyVal.none →
          ctx.page_id = PyVal.none) ∧
      (intentDisplayOf r = PyVal.none → ctx.intent_id = PyVal.none)) := by
  refine ⟨?_, rfl, ?_⟩
  · intro r h
    cases r with
    | none => rfl
    | bool b =>
        cases b
        · rfl
        · simp [WellTypedReq, pyTruthy] at h
    | int n =>
        by_cases hn : n = 0
        · subst hn; rfl
        · simp [WellTypedReq, pyTruthy, hn] at h
    | str s =>
        have hf : pyTruthy (.str s) = false := by
          simpa [WellTypedReq] using h
        simp only [extractContext, hf, Bool.false_eq_true, if_false]
        rfl
    | list xs =>
        have hf : pyTruthy (.list xs) = false := by
          simpa [WellTypedReq] using h
        simp only [extractContext, hf, Bool.false_eq_true, if_false]
        rfl
    | dict d =>
        by_cases hemp : d.isEmpty
        · have hf : pyTruthy (.dict d) = false := by simp [pyTruthy, hemp]
          simp only [extractContext, hf, Bool.false_eq_true, if_false]
          rfl
        · have htr : pyTruthy (.dict d) = true := by simp [pyTruthy, hemp]
          unfold WellTypedReq at h
          simp only [Bool.and_eq_true] at h
          obtain ⟨⟨⟨hsi, hfl⟩, hpg⟩, hin⟩ := h
          obtain ⟨sid, hsid, hsess, hpar⟩ := siOk_elim _ hsi
          obtain ⟨s, hs⟩ := optIsStr_elim _ hsess
          obtain ⟨pd, hpd⟩ := optIsDict_elim _ hpar
          obtain ⟨fd, hfd⟩ := optIsDict_elim _ hfl
          obtain ⟨gd, hgd⟩ := optIsDict_elim _ hpg
          obtain ⟨td, htd⟩ := optIsDict_elim _ hin
          simp only [extractContext, htr, if_true, dictGet, pySplit, hsid, hs,
            hpd, hfd, hgd, htd, exc_pure_bind]
          by_cases hb1 : pyTruthy ((pd.lookup "flow-id").getD .none) = true
          · rw [if_pos hb1]
            by_cases hb2 : pyTruthy ((pd.lookup "page-id").getD .none) = true
            · rw [if_pos hb2]
              rfl
            · rw [if_neg hb2]
              rfl
          · rw [if_neg hb1]
            by_cases hb2 : pyTruthy ((pd.lookup "page-id").getD .none) = true
            · rw [if_pos hb2]
              rfl
            · rw [if_neg hb2]
              rfl
  · intro r ctx htr hok
    obtain ⟨hproj, hagent, hsess, hflow, hpage, hintent⟩ :=
      extractContext_fields_char r ctx htr hok
    refine ⟨?_, ?_, ?_, ?_⟩
    · intro hlt
      rw [hproj, hagent, hsess]
      simp [sessionTriple, if_neg (not_le.mpr hlt)]
    · intro hfp hfd
      rw [hflow, hfp, hfd]
      simp [pyTruthy]
    · intro hgp hgd
      rw [hpage, hgp, hgd]
      simp [pyTruthy]
    · intro hi
      rw [hintent, hi]

/-- C7 (amended). For every supplied request on which extraction
succeeds, flow_id is the `flow-id` parameter when that value is truthy,
and otherwise the `flowInfo.displayName` lookup (absent when neither can
be located); page_id behaves the same with `page-id` and
`pageInfo.displayName`. A present but falsy parameter (such as the empty
string) loses to the display name, which is where the frozen claim fails
(see the counterexample). -/
theorem flow_page_preference_truthy (r : PyVal) (ctx : DialogflowContext)
    (htr : pyTruthy r = true) (hok : extractContext r = .ok ctx) :
    ctx.flow_id =
      (if pyTruthy (flowParamOf r) then flowParamOf r else flowDisplayOf r) ∧
    ctx.page_id =
      (if pyTruthy (pageParamOf r) then pageParamOf r else pageDisplayOf r) := by
  cases r with
  | none => simp [pyTruthy] at htr
  | bool b =>
      cases b
      · simp [pyTruthy] at htr
      · simp only [extractContext, htr, if_true, dictGet, exc_throw_bind] at hok
        exact Except.noConfusion hok
  | int n =>
      simp only [extractContext, htr, if_true, dictGet, exc_throw_bind] at hok
      exact Except.noConfusion hok
  | str s =>
      simp only [extractContext, htr, if_true, dictGet, exc_throw_bind] at hok
      exact Except.noConfusion hok
  | list xs =>
      simp only [extractContext, htr, if_true, dictGet, exc_throw_bind] at hok
      exact Except.noConfusion hok
  | dict d =>
      simp only [extractContext, htr, if_true] at hok
      rcases hX : (d.lookup "sessionInfo").getD (.dict []) with _ | b | n | s0 | xs | si <;>
        simp only [hX, dictGet, pySplit, exc_pure_bind, exc_throw_bind] at hok <;>
        try exact Except.noConfusion hok
      rcases hS : (si.lookup "session").getD (.str "") with _ | b | n | s1 | xs | sd <;>
        simp only [hS, dictGet, pySplit, exc_pure_bind, exc_throw_bind] at hok <;>
        try exact Except.noConfusion hok
      rcases hP : (si.lookup "parameters").getD (.dict []) with _ | b | n | s2 | xs | ps <;>
        simp only [hP, dictGet, pySplit, exc_pure_bind, exc_throw_bind] at hok <;>
        try exact Except.noConfusion hok
      have hfp : flowParamOf (PyVal.dict d) = (ps.lookup "flow-id").getD PyVal.none := by
        simp [flowParamOf, hX, hP]
      have hpp : pageParamOf (PyVal.dict d) = (ps.lookup "page-id").getD PyVal.none := by
        simp [pageParamOf, hX, hP]
      by_cases hb1 : pyTruthy ((ps.lookup "flow-id").getD PyVal.none) = true
      · rw [if_pos hb1] at hok
        by_cases hb2 : pyTruthy ((ps.lookup "page-id").getD PyVal.none) = true
        · rw [if_pos hb2] at hok
          rcases hI : (d.lookup "intentInfo").getD (.dict []) with _ | b | n | s3 | xs | ii <;>
            simp only [hI, dictGet, exc_pure_bind, exc_throw_bind] at hok <;>
            try exact Except.noConfusion hok
          have hctx := Except.ok.inj hok
          subst hctx
          rw [hfp, hpp]
          rw [if_pos hb1, if_pos hb2]
          exact ⟨rfl, rfl⟩
        · rw [if_neg hb2] at hok
          rcases hG : (d.lookup "pageInfo").getD (.dict []) with _ | b | n | s3 | xs | pi <;>
            simp only [hG, dictGet, exc_pure_bind, exc_throw_bind] at hok <;>
            try exact Except.noConfusion hok
          rcases hI : (d.lookup "intentInfo").getD (.dict []) with _ | b | n | s4 | xs | ii <;>
            simp only [hI, dictGet, exc_pure_bind, exc_throw_bind] at hok <;>
            try exact Except.noConfusion hok
          have hpd : pageDisplayOf (PyVal.dict d) = (pi.lookup "displayName").getD PyVal.none := by
            simp [pageDisplayOf, hG]
          have hctx := Except.ok.inj hok
          subst hctx
          rw [hfp, hpp, hpd]
          rw [if_pos hb1, if_neg hb2]
          exact ⟨rfl, rfl⟩
      · rw [if_neg hb1] at hok
        rcases hF : (d.lookup "flowInfo").getD (.dict []) with _ | b | n | s3 | xs | fi <;>
          simp only [hF, dictGet, exc_pure_bind, exc_throw_bind] at hok <;>
          try exact Except.noConfusion hok
        have hfd : flowDisplayOf (PyVal.dict d) = (fi.lookup "displayName").getD PyVal.none := by
          simp [flowDisplayOf, hF]
        by_cases hb2 : pyTruthy ((ps.lookup "page-id").getD PyVal.none) = true
        · rw [if_pos hb2] at hok
          rcases hI : (d.lookup "intentInfo").getD (.dict []) with _ | b | n | s4 | xs | ii <;>
            simp only [hI, dictGet, exc_pure_bind, exc_throw_bind] at hok <;>
            try exact Except.noConfusion hok
          have hctx := Except.ok.inj hok
          subst hctx
          rw [hfp, hpp, hfd]
          rw [if_neg hb1, if_pos hb2]
          exact ⟨rfl, rfl⟩
        · rw [if_neg hb2] at hok
          rcases hG : (d.lookup "pageInfo").getD (.dict []) with _ | b | n | s4 | xs | pi <;>
            simp only [hG, dictGet, exc_pure_bind, exc_throw_bind] at hok <;>
            try exact Except.noConfusion hok
          rcases hI : (d.lookup "intentInfo").getD (.dict []) with _ | b | n | s5 | xs | ii <;>
            simp only [hI, dictGet, exc_pure_bind, exc_throw_bind] at hok <;>
            try exact Except.noConfusion hok
          have hpd : pageDisplayOf (PyVal.dict d) = (pi.lookup "displayName").getD PyVal.none := by
            simp [pageDisplayOf, hG]
          have hctx := Except.ok.inj hok
          subst hctx
          rw [hfp, hpp, hfd, hpd]
          rw [if_neg hb1, if_neg hb2]
          exact ⟨rfl, rfl⟩

theorem lookup_mem {α : Type} {l : List (String × α)} {k : String} {v : α}
    (h : l.lookup k = some v) : (k, v) ∈ l := by
  induction l with
  | nil => simp [List.lookup] at h
  | cons p rest ih =>
      obtain ⟨m, w⟩ := p
      by_cases hm : k = m
      · subst hm
        simp [List.lookup, beq_true_of_eq rfl] at h
        subst h
        exact List.mem_cons_self _ _
      · simp [List.lookup, beq_false_of_ne hm] at h
        exact List.mem_cons_of_mem _ (ih h)

theorem upperAttrs_lookup_cases (u : String) (v : PyVal)
    (h : loggingModuleUpperAttrs.lookup u = Option.some v) :
    u = "BASIC_FORMAT" ∨ u = "_STYLES" ∨ ∃ n, v = PyVal.int n := by
  have hmem := lookup_mem h
  simp only [loggingModuleUpperAttrs, List.mem_cons, List.not_mem_nil, or_false,
    Prod.mk.injEq] at hmem
  rcases hmem with ⟨h1, h2⟩ | ⟨h1, h2⟩ | ⟨h1, h2⟩ | ⟨h1, h2⟩ | ⟨h1, h2⟩ |
    ⟨h1, h2⟩ | ⟨h1, h2⟩ | ⟨h1, h2⟩ | ⟨h1, h2⟩ | ⟨h1, h2⟩
  · exact Or.inl h1
  · exact Or.inr (Or.inr ⟨50, h2⟩)
  · exact Or.inr (Or.inr ⟨10, h2⟩)
  · exact Or.inr (Or.inr ⟨40, h2⟩)
  · exact Or.inr (Or.inr ⟨50, h2⟩)
  · exact Or.inr (Or.inr ⟨20, h2⟩)
  · exact Or.inr (Or.inr ⟨0, h2⟩)
  · exact Or.inr (Or.inr ⟨30, h2⟩)
  · exact Or.inr (Or.inr ⟨30, h2⟩)
  · exact Or.inr (Or.inl h1)

theorem get_logger_isOk_of_int_level (st : LoggerState) (nm : String)
    (env : Option String) (n : Int)
    (hres : resolveLevelAttr env = PyVal.int n) :
    (get_logger st env nm PyVal.none).isOk = true := by
  simp only [get_logger, hres, checkLevel, exc_pure_bind]
  by_cases hh : (lookupOrFresh st nm).handlers.isEmpty = true
  · rw [if_pos hh]
    rfl
  · rw [if_neg hh]
    rfl

/-- C6 (amended). For ASCII LOG_LEVEL values (where the `strUpper` model
coincides with Python `str.upper`): `get_logger` resolves the threshold
case insensitively (the result depends only on the upper cased value);
every unrecognized or absent value silently defaults the threshold to
INFO (20); and the factory does not raise for any LOG_LEVEL value except
those upper casing to BASIC_FORMAT (where `setLevel` on the format string
constant raises ValueError) or to _STYLES (where `setLevel` on the style
table dict raises TypeError); see the counterexample for both raises. -/
theorem log_level_resolution (st : LoggerState) (nm : String) (env : Option String)
    (_hascii : isAsciiStr (env.getD "INFO") = true)
    (h : strUpper (env.getD "INFO") ≠ "BASIC_FORMAT")
    (h2 : strUpper (env.getD "INFO") ≠ "_STYLES") :
    (get_logger st env nm PyVal.none).isOk = true ∧
    (∀ t : Option String, isAsciiStr (t.getD "INFO") = true →
        strUpper (t.getD "INFO") = strUpper (env.getD "INFO") →
        get_logger st t nm PyVal.none = get_logger st env nm PyVal.none) ∧
    (loggingModuleUpperAttrs.lookup (strUpper (env.getD "INFO")) = Option.none →
        (get_logger st env nm PyVal.none).map (fun p => p.2.level) = .ok 20) := by
  refine ⟨?_, ?_, ?_⟩
  · rcases hl : loggingModuleUpperAttrs.lookup (strUpper (env.getD "INFO")) with _ | v
    · exact get_logger_isOk_of_int_level st nm env 20
        (by simp [resolveLevelAttr, hl])
    · rcases upperAttrs_lookup_cases _ _ hl with hbf | hst | ⟨n, hn⟩
      · exact absurd hbf h
      · exact absurd hst h2
      · subst hn
        exact get_logger_isOk_of_int_level st nm env n
          (by simp [resolveLevelAttr, hl])
  · intro t htascii ht
    have hres : resolveLevelAttr t = resolveLevelAttr env := by
      simp [resolveLevelAttr, ht]
    simp only [get_logger, hres]
  · intro hl
    have hres : resolveLevelAttr env = PyVal.int 20 := by
      simp [resolveLevelAttr, hl]
    simp only [get_logger, hres, checkLevel, exc_pure_bind]
    by_cases hh : (lookupOrFresh st nm).handlers.isEmpty = true
    · rw [if_pos hh]
      rfl
    · rw [if_neg hh]
      rfl

theorem get_logger_fresh_path (st : LoggerState) (env : Option String) (nm : String)
    (req : PyVal) (st1 : LoggerState) (lg1 : Logger)
    (h0 : (lookupOrFresh st nm).handlers = [])
    (h : get_logger st env nm req = .ok (st1, lg1)) :
    ∃ lvl ctx, checkLevel (resolveLevelAttr env) = .ok lvl ∧
      extractContext req = .ok ctx ∧
      lg1 = { level := lvl, propagate := false, handlers := [⟨0⟩],
              filters := (lookupOrFresh st nm).filters ++ [ctx] } ∧
      st1 = setKey st nm lg1 := by
  simp only [get_logger] at h
  rcases hc : checkLevel (resolveLevelAttr env) with e | lvl
  · rw [hc, exc_bind_err] at h
    exact Except.noConfusion h
  · rw [hc, exc_bind_ok] at h
    rw [h0] at h
    simp only [List.isEmpty_nil, if_true, List.nil_append] at h
    rcases hx : extractContext req with e | ctx
    · rw [hx, exc_bind_err] at h
      exact Except.noConfusion h
    · rw [hx, exc_bind_ok] at h
      have hp := Except.ok.inj h
      injection hp with hst hlg
      refine ⟨lvl, ctx, rfl, rfl, hlg.symm, ?_⟩
      rw [← hlg]
      exact hst.symm

theorem get_logger_configured_path (st : LoggerState) (env : Option String)
    (nm : String) (req : PyVal) (st1 : LoggerState) (lg1 : Logger)
    (h0 : (lookupOrFresh st nm).handlers ≠ [])
    (h : get_logger st env nm req = .ok (st1, lg1)) :
    ∃ lvl, checkLevel (resolveLevelAttr env) = .ok lvl ∧
      lg1 = { level := lvl, propagate := false,
              handlers := (lookupOrFresh st nm).handlers,
              filters := (lookupOrFresh st nm).filters } ∧
      st1 = setKey st nm lg1 := by
  simp only [get_logger] at h
  rcases hc : checkLevel (resolveLevelAttr env) with e | lvl
  · rw [hc, exc_bind_err] at h
    exact Except.noConfusion h
  · rw [hc, exc_bind_ok] at h
    have hemp : (lookupOrFresh st nm).handlers.isEmpty = false := by
      cases hh : (lookupOrFresh st nm).handlers with
      | nil => exact absurd hh h0
      | cons a b => rfl
    rw [hemp] at h
    simp only [Bool.false_eq_true, if_false] at h
    have hp := Except.ok.inj h
    injection hp with hst hlg
    refine ⟨lvl, rfl, hlg.symm, ?_⟩
    rw [← hlg]
    exact hst.symm

theorem get_logger_req_irrelevant (st : LoggerState) (env : Option String)
    (nm : String) (req req' : PyVal)
    (h0 : (lookupOrFresh st nm).handlers ≠ []) :
    get_logger st env nm req = get_logger st env nm req' := by
  simp only [get_logger]
  rcases hc : checkLevel (resolveLevelAttr env) with e | lvl
  · rw [exc_bind_err, exc_bind_err]
  · rw [exc_bind_ok, exc_bind_ok]
    have hemp : (lookupOrFresh st nm).handlers.isEmpty = false := by
      cases hh : (lookupOrFresh st nm).handlers with
      | nil => exact absurd hh h0
      | cons a b => rfl
    rw [hemp]
    simp only [Bool.false_eq_true, if_false]

theorem logCall_eval (st : LoggerState) (nm : String) (levelno : Nat)
    (levelname msg asctime : String) (extras : JsonObj) (created : PyVal)
    (hlvl : effectiveLevel (lookupOrFresh st nm) ≤ levelno)
    (hex : validExtras extras = true) :
    logCall st nm levelno levelname msg asctime extras created =
      .ok (((lookupOrFresh st nm).handlers.filter (fun h => h.level ≤ levelno)).map
        (fun _ => add_fields (lookupOrFresh st nm).filters.getLast? extras nm
          levelname msg asctime created)) := by
  simp only [logCall]
  rw [if_neg (not_lt.mpr hlvl), if_pos hex]
  rfl

theorem isSome_foldl_setKey (upd : JsonObj) (o : JsonObj) (k : String)
    (h : (o.lookup k).isSome) :
    ((upd.foldl (fun acc kv => setKey acc kv.1 kv.2) o).lookup k).isSome := by
  induction upd generalizing o with
  | nil => exact h
  | cons kv rest ih =>
      rw [List.foldl_cons]
      exact ih _ (isSome_lookup_setKey _ _ _ _ h)

theorem isSome_stampContext_mono (ctx : Option DialogflowContext) (o : JsonObj)
    (k : String) (h : (o.lookup k).isSome) :
    ((stampContext ctx o).lookup k).isSome := by
  cases ctx with
  | none => exact h
  | some c => exact isSome_foldl_setKey _ _ _ h

theorem lookup_stampContext_six (c : DialogflowContext) (o : JsonObj) :
    (stampContext (Option.some c) o).lookup "session_id" = some c.session_id ∧
    (stampContext (Option.some c) o).lookup "project_id" = some c.project_id ∧
    (stampContext (Option.some c) o).lookup "agent_id" = some c.agent_id ∧
    (stampContext (Option.some c) o).lookup "flow_id" = some c.flow_id ∧
    (stampContext (Option.some c) o).lookup "page_id" = some c.page_id ∧
    (stampContext (Option.some c) o).lookup "intent_id" = some c.intent_id := by
  simp only [stampContext, ctxToObj, List.foldl_cons, List.foldl_nil]
  refine ⟨?_, ?_, ?_, ?_, ?_, ?_⟩ <;> simp [lookup_setKey]

theorem customShape_required (o : JsonObj) (nm : String) (created : PyVal) :
    ((customShape o nm created).lookup "timestamp").isSome ∧
    ((customShape o nm created).lookup "severity").isSome ∧
    ((customShape o nm created).lookup "name").isSome := by
  simp only [customShape, popKey]
  refine ⟨?_, ?_, ?_⟩ <;> simp [lookup_setKey, lookup_delKey_ne]

theorem customShape_preserve (o : JsonObj) (nm : String) (created : PyVal)
    (k : String) (h1 : k ≠ "asctime") (h2 : k ≠ "levelname") (h3 : k ≠ "name")
    (h : (o.lookup k).isSome) :
    ((customShape o nm created).lookup k).isSome := by
  by_cases ht : k = "timestamp"
  · subst ht
    exact (customShape_required o nm created).1
  · by_cases hs : k = "severity"
    · subst hs
      exact (customShape_required o nm created).2.1
    · simp only [customShape, popKey]
      rw [lookup_setKey, if_neg h3, lookup_delKey_ne _ _ _ h3,
        lookup_setKey, if_neg hs, lookup_delKey_ne _ _ _ h2,
        lookup_setKey, if_neg ht, lookup_delKey_ne _ _ _ h1]
      exact h

theorem isSome_mergeContextAttr_mono (ctx : Option DialogflowContext)
    (o : JsonObj) (k : String) (h : (o.lookup k).isSome) :
    ((mergeContextAttr ctx o).lookup k).isSome := by
  cases ctx with
  | none => exact h
  | some c => exact isSome_lookup_setKey _ _ _ _ h

theorem validExtras_facts (extras : JsonObj) (kv : String × PyVal)
    (hex : validExtras extras = true) (hmem : kv ∈ extras) :
    RESERVED_ATTRS.contains kv.1 = false ∧ renameOf kv.1 = kv.1 ∧
    kv.1 ≠ "asctime" ∧ kv.1 ≠ "levelname" ∧ kv.1 ≠ "name" := by
  have hres : RESERVED_ATTRS.contains kv.1 = false := by
    have := (List.all_eq_true.mp hex) kv hmem
    simpa using this
  have hne : ∀ s : String, RESERVED_ATTRS.contains s = true → kv.1 ≠ s := by
    intro s hs he
    rw [he, hs] at hres
    exact Bool.noConfusion hres
  refine ⟨hres, ?_, hne "asctime" rfl, hne "levelname" rfl, hne "name" rfl⟩
  rw [renameOf, if_neg (hne "levelname" rfl), if_neg (hne "asctime" rfl)]

theorem add_fields_spec (c : DialogflowContext) (extras : JsonObj)
    (nm levelname msg asctime : String) (created : PyVal) (r : JsonObj)
    (hr : r = add_fields (Option.some c) extras nm levelname msg asctime created)
    (hex : validExtras extras = true) :
    (r.lookup "session_id" = some c.session_id ∧
     r.lookup "project_id" = some c.project_id ∧
     r.lookup "agent_id" = some c.agent_id ∧
     r.lookup "flow_id" = some c.flow_id ∧
     r.lookup "page_id" = some c.page_id ∧
     r.lookup "intent_id" = some c.intent_id) ∧
    ((r.lookup "timestamp").isSome ∧ (r.lookup "severity").isSome ∧
     (r.lookup "name").isSome ∧ (r.lookup "message").isSome) ∧
    (∀ kv ∈ extras, startsUnderscore kv.1 = false → (r.lookup kv.1).isSome) := by
  subst hr
  unfold add_fields
  refine ⟨lookup_stampContext_six c _, ⟨?_, ?_, ?_, ?_⟩, ?_⟩
  · exact isSome_stampContext_mono _ _ _ (customShape_required _ nm created).1
  · exact isSome_stampContext_mono _ _ _ (customShape_required _ nm created).2.1
  · exact isSome_stampContext_mono _ _ _ (customShape_required _ nm created).2.2
  · refine isSome_stampContext_mono _ _ _
      (customShape_preserve _ _ _ _ (by decide) (by decide) (by decide) ?_)
    refine isSome_mergeContextAttr_mono _ _ _ ?_
    exact isSome_mergeExtras_mono _ _ _ (by rfl)
  · intro kv hmem hund
    obtain ⟨hres, hren, hna, hnl, hnn⟩ := validExtras_facts extras kv hex hmem
    refine isSome_stampContext_mono _ _ _
      (customShape_preserve _ _ _ _ hna hnl hnn ?_)
    refine isSome_mergeContextAttr_mono _ _ _ ?_
    have hm := isSome_mergeExtras_mem extras
      (baseFields nm levelname msg asctime) kv hmem hres hund
    rwa [hren] at hm

/-- C3. After a first `get_logger` call configured the channel, every
further call with the same name that returns at all returns the registered
channel itself with the same handlers and the same filters (nothing is
attached again), and a record logged afterwards at or above the threshold
produces exactly one JSON output line. -/
theorem get_logger_configures_once
    (st : LoggerState) (env1 env2 : Option String) (req1 req2 : PyVal)
    (nm : String) (st1 st2 : LoggerState) (lg1 lg2 : Logger)
    (h0 : (lookupOrFresh st nm).handlers = [])
    (h1 : get_logger st env1 nm req1 = .ok (st1, lg1))
    (h2 : get_logger st1 env2 nm req2 = .ok (st2, lg2))
    (levelno : Nat) (levelname msg asctime : String) (extras : JsonObj)
    (created : PyVal)
    (hlvl : effectiveLevel lg2 ≤ levelno) (hex : validExtras extras = true) :
    lookupOrFresh st2 nm = lg2 ∧
    lg2.handlers = lg1.handlers ∧ lg2.filters = lg1.filters ∧
    (logCall st2 nm levelno levelname msg asctime extras created).map
      List.length = .ok 1 := by
  obtain ⟨lvl1, ctx1, hc1, hx1, hlg1, hst1⟩ := get_logger_fresh_path _ _ _ _ _ _ h0 h1
  have hlook1 : lookupOrFresh st1 nm = lg1 := by
    rw [hst1]
    simp [lookupOrFresh, lookup_setKey]
  have hne : (lookupOrFresh st1 nm).handlers ≠ [] := by
    rw [hlook1, hlg1]
    simp
  obtain ⟨lvl2, hc2, hlg2, hst2⟩ := get_logger_configured_path _ _ _ _ _ _ hne h2
  have hlook2 : lookupOrFresh st2 nm = lg2 := by
    rw [hst2]
    simp [lookupOrFresh, lookup_setKey]
  have hh : lg2.handlers = lg1.handlers := by
    rw [hlg2]
    simp [hlook1]
  have hf : lg2.filters = lg1.filters := by
    rw [hlg2]
    simp [hlook1]
  refine ⟨hlook2, hh, hf, ?_⟩
  rw [logCall_eval st2 nm levelno levelname msg asctime extras created
    (by rw [hlook2]; exact hlvl) hex]
  rw [hlook2, hh, hlg1]
  simp [List.filter, Except.map]

/-- C8. When LOG_LEVEL=WARNING is set at configuration time, a
subsequent call at INFO severity on that channel emits nothing and a call
at ERROR severity emits exactly one line. -/
theorem warning_threshold_filters
    (st : LoggerState) (nm : String) (req : PyVal) (st1 : LoggerState)
    (lg1 : Logger)
    (h0 : (lookupOrFresh st nm).handlers = [])
    (h1 : get_logger st (Option.some "WARNING") nm req = .ok (st1, lg1))
    (msg asctime : String) (extras : JsonObj) (created : PyVal)
    (hex : validExtras extras = true) :
    logCall st1 nm 20 "INFO" msg asctime extras created = .ok [] ∧
    (logCall st1 nm 40 "ERROR" msg asctime extras created).map
      List.length = .ok 1 := by
  obtain ⟨lvl, ctx, hc, hx, hlg1, hst1⟩ := get_logger_fresh_path _ _ _ _ _ _ h0 h1
  have hlvl : lvl = 30 := by
    have h30 : checkLevel (resolveLevelAttr (Option.some "WARNING")) =
        Except.ok 30 := rfl
    exact (Except.ok.inj (hc.symm.trans h30))
  subst hlvl
  have hlook1 : lookupOrFresh st1 nm = lg1 := by
    rw [hst1]
    simp [lookupOrFresh, lookup_setKey]
  constructor
  · simp [logCall, hlook1, hlg1, effectiveLevel]
    rfl
  · rw [logCall_eval st1 nm 40 "ERROR" msg asctime extras created
      (by rw [hlook1, hlg1]; norm_num [effectiveLevel]) hex]
    rw [hlook1, hlg1]
    simp [List.filter, Except.map]

/-- C9 (amended). For an already configured name, `get_logger` returns
the registered channel with handlers and filters untouched and the
context of the call silently discarded (the result does not depend on the
request argument), propagation stays disabled, but the severity threshold
is re-resolved from the current LOG_LEVEL and reassigned before the guard
returns, so it does change when the environment changed (see the
counterexample). -/
theorem guard_path_frame
    (st : LoggerState) (env : Option String) (nm : String) (req : PyVal)
    (st2 : LoggerState) (lg2 : Logger)
    (h0 : (lookupOrFresh st nm).handlers ≠ [])
    (h : get_logger st env nm req = .ok (st2, lg2)) :
    lg2.handlers = (lookupOrFresh st nm).handlers ∧
    lg2.filters = (lookupOrFresh st nm).filters ∧
    lg2.propagate = false ∧
    st2 = setKey st nm lg2 ∧
    (∀ lvl, checkLevel (resolveLevelAttr env) = .ok lvl → lg2.level = lvl) ∧
    (∀ req2, get_logger st env nm req2 = .ok (st2, lg2)) := by
  obtain ⟨lvl, hc, hlg2, hst2⟩ := get_logger_configured_path _ _ _ _ _ _ h0 h
  refine ⟨by rw [hlg2], by rw [hlg2], by rw [hlg2], hst2, ?_, ?_⟩
  · intro l hl
    rw [hlg2]
    exact Except.ok.inj (hc.symm.trans hl)
  · intro req2
    exact (get_logger_req_irrelevant st env nm req2 req h0).trans h

/-- C5 (amended). Every record emitted by a channel built by
`get_logger` contains the keys timestamp, severity, name, message and all
six context keys (stamped unconditionally), plus every caller supplied
extra key that does not start with an underscore; underscore prefixed
extras are silently omitted by `merge_record_extra` (see the
counterexample). -/
theorem record_contains_required_keys
    (st : LoggerState) (env : Option String) (nm : String) (req : PyVal)
    (st1 : LoggerState) (lg1 : Logger)
    (hfresh : st.lookup nm = Option.none)
    (h1 : get_logger st env nm req = .ok (st1, lg1))
    (levelno : Nat) (levelname msg asctime : String) (extras : JsonObj)
    (created : PyVal)
    (hlvl : effectiveLevel lg1 ≤ levelno) (hex : validExtras extras = true)
    (lines : List JsonObj) (rec : JsonObj)
    (hcall : logCall st1 nm levelno levelname msg asctime extras created =
      .ok lines)
    (hrec : rec ∈ lines) :
    ((rec.lookup "timestamp").isSome ∧ (rec.lookup "severity").isSome ∧
     (rec.lookup "name").isSome ∧ (rec.lookup "message").isSome) ∧
    ((rec.lookup "session_id").isSome ∧ (rec.lookup "project_id").isSome ∧
     (rec.lookup "agent_id").isSome ∧ (rec.lookup "flow_id").isSome ∧
     (rec.lookup "page_id").isSome ∧ (rec.lookup "intent_id").isSome) ∧
    (∀ kv ∈ extras, startsUnderscore kv.1 = false →
      (rec.lookup kv.1).isSome) := by
  have h0 : (lookupOrFresh st nm).handlers = [] := by
    simp [lookupOrFresh, hfresh, freshLogger]
  have hfl : (lookupOrFresh st nm).filters = [] := by
    simp [lookupOrFresh, hfresh, freshLogger]
  obtain ⟨lvl, ctx, hc, hx, hlg1, hst1⟩ := get_logger_fresh_path _ _ _ _ _ _ h0 h1
  have hlook1 : lookupOrFresh st1 nm = lg1 := by
    rw [hst1]
    simp [lookupOrFresh, lookup_setKey]
  rw [logCall_eval st1 nm levelno levelname msg asctime extras created
    (by rw [hlook1]; exact hlvl) hex] at hcall
  have hlines := Except.ok.inj hcall
  have hflt : (lookupOrFresh st1 nm).filters.getLast? = some ctx := by
    rw [hlook1, hlg1]
    simp [hfl]
  rw [← hlines] at hrec
  obtain ⟨x, hxmem, hxeq⟩ := List.mem_map.mp hrec
  have hr : rec = add_fields (Option.some ctx) extras nm levelname msg
      asctime created := by
    rw [← hxeq, hflt]
  obtain ⟨hsix, hreqd, hextra⟩ :=
    add_fields_spec ctx extras nm levelname msg asctime created rec hr hex
  refine ⟨hreqd, ⟨?_, ?_, ?_, ?_, ?_, ?_⟩, hextra⟩
  · rw [hsix.1]; rfl
  · rw [hsix.2.1]; rfl
  · rw [hsix.2.2.1]; rfl
  · rw [hsix.2.2.2.1]; rfl
  · rw [hsix.2.2.2.2.1]; rfl
  · rw [hsix.2.2.2.2.2]; rfl

/-- C10. When a log call supplies a caller extra whose key collides
with one of the six context keys, the emitted record carries the stamped
context value for that key, not the caller value: the context dict is
merged into the shaped record last and overwrites any same named key. -/
theorem context_overwrites_extras
    (st : LoggerState) (env : Option String) (nm : String) (req : PyVal)
    (st1 : LoggerState) (lg1 : Logger)
    (hfresh : st.lookup nm = Option.none)
    (h1 : get_logger st env nm req = .ok (st1, lg1))
    (c : DialogflowContext) (hc : extractContext req = .ok c)
    (levelno : Nat) (levelname msg asctime : String) (extras : JsonObj)
    (created : PyVal)
    (hlvl : effectiveLevel lg1 ≤ levelno) (hex : validExtras extras = true)
    (lines : List JsonObj) (rec : JsonObj)
    (hcall : logCall st1 nm levelno levelname msg asctime extras created =
      .ok lines)
    (hrec : rec ∈ lines)
    (k : String) (v cv : PyVal)
    (hkc : (k, cv) ∈ ctxToObj c) (hke : (k, v) ∈ extras) :
    rec.lookup k = some cv := by
  have h0 : (lookupOrFresh st nm).handlers = [] := by
    simp [lookupOrFresh, hfresh, freshLogger]
  obtain ⟨lvl, ctx, hcl, hx, hlg1, hst1⟩ := get_logger_fresh_path _ _ _ _ _ _ h0 h1
  have hcc : ctx = c := Except.ok.inj (hx.symm.trans hc)
  subst hcc
  have hlook1 : lookupOrFresh st1 nm = lg1 := by
    rw [hst1]
    simp [lookupOrFresh, lookup_setKey]
  rw [logCall_eval st1 nm levelno levelname msg asctime extras created
    (by rw [hlook1]; exact hlvl) hex] at hcall
  have hlines := Except.ok.inj hcall
  have hflt : (lookupOrFresh st1 nm).filters.getLast? = some ctx := by
    rw [hlook1, hlg1]
    simp
  rw [← hlines] at hrec
  obtain ⟨x, hxmem, hxeq⟩ := List.mem_map.mp hrec
  have hr : rec = add_fields (Option.some ctx) extras nm levelname msg
      asctime created := by
    rw [← hxeq, hflt]
  rw [hr]
  unfold add_fields
  have hsix := lookup_stampContext_six ctx
    (customShape
      (mergeContextAttr (Option.some ctx)
        (mergeRecordExtra (baseFields nm levelname msg asctime) extras))
      nm created)
  simp only [ctxToObj, List.mem_cons, List.not_mem_nil, or_false,
    Prod.mk.injEq] at hkc
  rcases hkc with ⟨hk1, hk2⟩ | ⟨hk1, hk2⟩ | ⟨hk1, hk2⟩ | ⟨hk1, hk2⟩ |
    ⟨hk1, hk2⟩ | ⟨hk1, hk2⟩ <;> subst hk1 <;> subst hk2
  · exact hsix.1
  · exact hsix.2.1
  · exact hsix.2.2.1
  · exact hsix.2.2.2.1
  · exact hsix.2.2.2.2.1
  · exact hsix.2.2.2.2.2

theorem extractContext_wellTyped_no_raise_witness :
    (extractContext telecomReq).isOk = true ∧
    (((pySplitSlash (sessionPathOf sparseReq)).length < 6 →
        absentContext.project_id = PyVal.none ∧
        absentContext.agent_id = PyVal.none ∧
        absentContext.session_id = PyVal.none) ∧
     (flowParamOf sparseReq = PyVal.none →
        flowDisplayOf sparseReq = PyVal.none →
        absentContext.flow_id = PyVal.none) ∧
     (pageParamOf sparseReq = PyVal.none →
        pageDisplayOf sparseReq = PyVal.none →
        absentContext.page_id = PyVal.none) ∧
     (intentDisplayOf sparseReq = PyVal.none →
        absentContext.intent_id = PyVal.none)) :=
  ⟨extractContext_wellTyped_no_raise.1 telecomReq rfl,
   extractContext_wellTyped_no_raise.2.2 sparseReq absentContext rfl rfl⟩

theorem extractContext_session_split_fields_witness :
    (6 ≤ (pySplitSlash envSessionStr).length →
       envCtx.project_id = .str ((pySplitSlash envSessionStr).getD 1 "") ∧
       envCtx.agent_id = .str ((pySplitSlash envSessionStr).getD 3 "") ∧
       envCtx.session_id = .str ((pySplitSlash envSessionStr).getLastD "")) ∧
    ((pySplitSlash envSessionStr).length < 6 →
       envCtx.project_id = PyVal.none ∧ envCtx.agent_id = PyVal.none ∧
       envCtx.session_id = PyVal.none) :=
  extractContext_session_split_fields envD envSi envSessionStr envCtx rfl rfl rfl

theorem get_logger_configures_once_witness :
    lookupOrFresh cfgSt "app" = cfgLg ∧
    cfgLg.handlers = cfgLg.handlers ∧ cfgLg.filters = cfgLg.filters ∧
    (logCall cfgSt "app" 20 "INFO" "m" "ts" [] (.int 1700)).map
      List.length = .ok 1 :=
  get_logger_configures_once [] Option.none Option.none PyVal.none PyVal.none
    "app" cfgSt cfgSt cfgLg cfgLg rfl rfl rfl 20 "INFO" "m" "ts" [] (.int 1700)
    (by decide) rfl

theorem record_contains_required_keys_witness :
    ((c5Rec.lookup "timestamp").isSome ∧ (c5Rec.lookup "severity").isSome ∧
     (c5Rec.lookup "name").isSome ∧ (c5Rec.lookup "message").isSome) ∧
    ((c5Rec.lookup "session_id").isSome ∧ (c5Rec.lookup "project_id").isSome ∧
     (c5Rec.lookup "agent_id").isSome ∧ (c5Rec.lookup "flow_id").isSome ∧
     (c5Rec.lookup "page_id").isSome ∧ (c5Rec.lookup "intent_id").isSome) ∧
    (∀ kv ∈ c5Extras, startsUnderscore kv.1 = false →
      (c5Rec.lookup kv.1).isSome) :=
  record_contains_required_keys [] Option.none "app" telecomReq telecomSt
    telecomLg rfl rfl 20 "INFO" "Starting internet speed diagnosis." "ts"
    c5Extras (.int 1700) (by decide) rfl [c5Rec] c5Rec rfl
    (List.mem_singleton.mpr rfl)

theorem log_level_resolution_witness :
    (get_logger [] (Option.some "warning") "app" PyVal.none).isOk = true ∧
    (∀ t : Option String, isAsciiStr (t.getD "INFO") = true →
        strUpper (t.getD "INFO") = strUpper ((Option.some "warning").getD "INFO") →
        get_logger [] t "app" PyVal.none =
          get_logger [] (Option.some "warning") "app" PyVal.none) ∧
    (loggingModuleUpperAttrs.lookup
        (strUpper ((Option.some "warning").getD "INFO")) = Option.none →
      (get_logger [] (Option.some "warning") "app" PyVal.none).map
        (fun p => p.2.level) = .ok 20) :=
  log_level_resolution [] "app" (Option.some "warning") (by decide) (by decide)
    (by decide)

theorem flow_page_preference_truthy_witness :
    c7Ctx.flow_id =
      (if pyTruthy (flowParamOf c7W) then flowParamOf c7W
       else flowDisplayOf c7W) ∧
    c7Ctx.page_id =
      (if pyTruthy (pageParamOf c7W) then pageParamOf c7W
       else pageDisplayOf c7W) :=
  flow_page_preference_truthy c7W c7Ctx rfl rfl

theorem warning_threshold_filters_witness :
    logCall warnSt "app" 20 "INFO" "m" "ts" [] (.int 1700) = .ok [] ∧
    (logCall warnSt "app" 40 "ERROR" "m" "ts" [] (.int 1700)).map
      List.length = .ok 1 :=
  warning_threshold_filters [] "app" PyVal.none warnSt warnLg rfl rfl
    "m" "ts" [] (.int 1700) rfl

theorem guard_path_frame_witness :
    lg40.handlers = (lookupOrFresh cfgSt "app").handlers ∧
    lg40.filters = (lookupOrFresh cfgSt "app").filters ∧
    lg40.propagate = false ∧
    [("app", lg40)] = setKey cfgSt "app" lg40 ∧
    (∀ lvl, checkLevel (resolveLevelAttr (Option.some "ERROR")) = .ok lvl →
        lg40.level = lvl) ∧
    (∀ req2, get_logger cfgSt (Option.some "ERROR") "app" req2 =
        .ok ([("app", lg40)], lg40)) :=
  guard_path_frame cfgSt (Option.some "ERROR") "app" PyVal.none
    [("app", lg40)] lg40 (by decide) rfl

theorem context_overwrites_extras_witness :
    c10Rec.lookup "session_id" = some (PyVal.str "session-xyz-789") :=
  context_overwrites_extras [] Option.none "app" telecomReq telecomSt telecomLg
    rfl rfl telecomCtx rfl 20 "INFO" "m" "ts" c10Extras (.int 1700)
    (by decide) rfl [c10Rec] c10Rec rfl (List.mem_singleton.mpr rfl)
    "session_id" (.str "SPOOF") (.str "session-xyz-789")
    (List.mem_cons_self _ _) (List.mem_singleton.mpr rfl)

end SharedLogging
